import Mathlib

/-
Shallow embedding of the content.js incremental content-build pipeline.

The embedding mirrors, definition by definition, the JavaScript source:
  * lib/database.js  : parseResourcePath, SourceDatabase, TargetDatabase
  * lib/project.js   : Target.targetPathFor, TargetBuilder (sourceFileModified,
                       dependenciesModified, buildOutputsExist, requiresRebuild,
                       determineBuildFiles, handleFileComplete, determinePlatform,
                       packageManifestExists), PackageBuilder (handleFileSkipped,
                       checkComplete, targetComplete, notifyComplete, buildTarget)
  * lib/compiler.js  : JobQueue (submit, complete), CompilerCache
                       (findCompiler, build, handleMonitorMessage, checkReadyStatus,
                       handleMonitorError)
  * lib/monitor.js   : Monitor.start, Monitor.kill

Modelling conventions:
  * JavaScript strings are Lean `String` / `List Char`; `charCodeAt` is
    `Char.toNat` (all inputs considered are in the basic multilingual plane).
  * JavaScript numbers holding integers are `Int`; the `<<`/`>>` operators apply
    `ToInt32` to their operands, modelled by `toInt32`; `>>` on an int32 value is
    floor division, modelled by `Int.fdiv`.
  * `fs` access (`statSync`, `FSUtil.isFile`) is modelled by an explicit `Disk`
    association list passed where the source reads the filesystem; a missing
    file makes `statSync` throw, modelled by `Option`/`Except`.
  * JavaScript exceptions (including the `ReferenceError` raised by evaluating
    the undeclared variable `bundle` inside `dependenciesModified`, and the
    `TypeError` raised by `cproc.pid` when `cproc` is `null` in `Monitor.start`)
    are modelled by `Except JsError` / explicit `thrown` flags.
  * JavaScript plain objects used as string-keyed maps (`entryTable`,
    `compilers`) are association lists with at most one binding per key.
  * In-place mutation of a database entry obtained from `query` is modelled by
    rewriting the stored entry at the key under which it is indexed.
  * `Path.relative root p` is modelled by stripping the `root ++ "/"` lead of
    `p`, and `Path.join a b` by `a ++ "/" ++ b`; all concrete paths used below
    are already in the normal form for which these agree with node's `path`.
  * JavaScript array element assignment `a[i] = x` is modelled by
    `jsArraySet`, which replaces in place for `i < a.length` and appends for
    `i = a.length`; no state reached in the developments below assigns past
    the end (which in JavaScript would create holes).
-/

/-! ### JavaScript string primitives -/

/-- Index of the first element satisfying the predicate. -/
def jsFindIdx (p : Char → Bool) : List Char → Option Nat
  | [] => none
  | a :: l => if p a then some 0 else (jsFindIdx p l).map (fun i => i + 1)

/-- JS `String.prototype.indexOf(ch, from)` restricted to single-character
needles, over the code units of the string, with a natural start position. -/
def jsIndexOfFromNat (l : List Char) (c : Char) (start : Nat) : Option Nat :=
  match jsFindIdx (fun a => a = c) (l.drop start) with
  | some j => some (start + j)
  | none   => none

/-- JS `indexOf(ch, from)` with JS result convention: `-1` when absent.  A
negative `from` is clamped to `0`, as in JS. -/
def jsIndexOfFrom (l : List Char) (c : Char) (start : Int) : Int :=
  match jsIndexOfFromNat l c start.toNat with
  | some i => (i : Int)
  | none   => -1

/-- JS `String.prototype.lastIndexOf(ch)`: index of the last occurrence,
`-1` when absent. -/
def jsLastIndexOf (l : List Char) (c : Char) : Int :=
  match jsFindIdx (fun a => a = c) l.reverse with
  | some j => (l.length : Int) - 1 - j
  | none   => -1

/-- Clamp a JS `substring` argument into `[0, len]`. -/
def jsClamp (x : Int) (len : Nat) : Nat :=
  if x < 0 then 0 else min x.toNat len

/-- JS `String.prototype.substring(a, b)`: both arguments clamped to
`[0, length]` and swapped when out of order. -/
def jsSubstring (l : List Char) (a b : Int) : List Char :=
  let af := jsClamp a l.length
  let bf := jsClamp b l.length
  let lo := min af bf
  let hi := max af bf
  (l.drop lo).take (hi - lo)

/-- JS one-argument `substring(a)`, i.e. `substring(a, length)`. -/
def jsSubstringFrom (l : List Char) (a : Int) : List Char :=
  jsSubstring l a (l.length : Int)

/-- JS `String.prototype.split(sep)` for a single-character separator.  Note
`"".split(sep)` is `[""]`, a one-element list holding the empty string. -/
def jsSplitChar (l : List Char) (sep : Char) : List (List Char) :=
  match l with
  | [] => [[]]
  | a :: rest =>
    let r := jsSplitChar rest sep
    if a = sep then [] :: r
    else
      match r with
      | h :: t => (a :: h) :: t
      | [] => [[a]]

/-! ### JavaScript 32-bit integer primitives -/

/-- ECMAScript `ToInt32`: reduce an integer modulo `2^32` into
`[-2^31, 2^31)`. -/
def toInt32 (x : Int) : Int :=
  let r := Int.emod x 4294967296
  if r ≥ 2147483648 then r - 4294967296 else r

/-- JS `x << 7`: `ToInt32` the operand, shift, and wrap back into int32. -/
def jsShl7 (x : Int) : Int :=
  toInt32 (toInt32 x * 128)

/-- JS `x >> 25`: `ToInt32` the operand, then sign-extending (floor) shift. -/
def jsShr25 (x : Int) : Int :=
  Int.fdiv (toInt32 x) 33554432

/-- One step of the rolling hash in `Target.prototype.targetPathFor`:
`hash = (hash << 7) + (hash >> 25) + ch`.  The two shift operators truncate
their operand to int32; the additions are exact (JS doubles hold these values
exactly), so the running value is only truncated when the next step shifts. -/
def stbHashStep (hash : Int) (ch : Nat) : Int :=
  jsShl7 hash + jsShr25 hash + (ch : Int)

/-- The full rolling hash over the code units of a resource name, initial 0. -/
def jsHash (s : List Char) : Int :=
  s.foldl (fun h c => stbHashStep h c.toNat) 0

/-- JS `Number.prototype.toString(16)` for integral values: lowercase hex
digits, with a leading minus sign for negative values. -/
def jsNumberToHexChars (i : Int) : List Char :=
  if i < 0 then '-' :: Nat.toDigits 16 i.natAbs else Nat.toDigits 16 i.toNat

/-! ### Path model -/

/-- The path separator (POSIX `Path.sep`). -/
def pathSep : Char := '/'

/-- Model of node `Path.join` for an already-normalised directory and a
separator-free trailing component. -/
def pathJoin (dir leaf : String) : String :=
  dir ++ "/" ++ leaf

/-- Model of node `Path.relative root p` for the case where `p` lies under
`root`: strip the `root ++ "/"` lead; other inputs are returned unchanged
(no concrete path below exercises that case). -/
def pathRelative (root p : String) : String :=
  let rl := (root ++ "/").data
  if rl.isPrefixOf p.data then ⟨p.data.drop rl.length⟩ else p

/-! ### parseResourcePath (lib/database.js) -/

/-- Result of `parseResourcePath`. -/
structure ResourceParts where
  resourceName : String
  resourceType : String
  properties   : List String
deriving Repr, DecidableEq

/-- `parseResourcePath(root, path)` from lib/database.js, acting on
`pn = Path.relative(root, path)` (the relativisation is precomposed):

    var ls  = pn.lastIndexOf(Path.sep);
    var fp  = pn.indexOf('.',  ls + 1);
    var lp  = pn.lastIndexOf('.');
    var rn  = pn.substring(0, fp);
    var rt  = pn.substring(lp + 1);
    var ps  = fp === lp ? '' : pn.substring(fp + 1, lp);
    return { resourceName: rn, resourceType: rt, properties: ps.split('.') };
-/
def parseResourcePath (pn : String) : ResourceParts :=
  let l  := pn.data
  let ls := jsLastIndexOf l pathSep
  let fp := jsIndexOfFrom l '.' (ls + 1)
  let lp := jsLastIndexOf l '.'
  let rn := jsSubstring l 0 fp
  let rt := jsSubstringFrom l (lp + 1)
  let ps := if fp = lp then [] else jsSubstring l (fp + 1) lp
  { resourceName := ⟨rn⟩
    resourceType := ⟨rt⟩
    properties   := (jsSplitChar ps '.').map (fun w => ⟨w⟩) }

/-! ### Target.targetPathFor (lib/project.js) -/

/-- `Target.prototype.targetPathFor(resourceName)`: hash the resource name and
join the lowercase-hex rendering of the JS number to the target directory. -/
def targetPathFor (targetPath : String) (resourceName : String) : String :=
  pathJoin targetPath ⟨jsNumberToHexChars (jsHash resourceName.data)⟩

/-! ### Filesystem model -/

/-- The result of `fs.statSync` for a regular file: mtime (milliseconds, as
`Date.getTime()`) and size in bytes. -/
structure FileStat where
  mtime : Int
  size  : Int
deriving Repr, DecidableEq

/-- The filesystem, as a finite map from absolute path to stat data. -/
def Disk := List (String × FileStat)

/-- `fs.statSync p` succeeding: look the path up; `none` models the throw. -/
def diskStat (d : Disk) (p : String) : Option FileStat :=
  (List.find? (fun kv => kv.1 = p) d).map (fun kv => kv.2)

/-- `FSUtil.isFile p`. -/
def diskIsFile (d : Disk) (p : String) : Bool :=
  (diskStat d p).isSome

/-! ### String-keyed JS objects (entryTable, compilers, pathTable) -/

/-- Lookup in a JS object used as a string-keyed map. -/
def jsMapGet {α : Type} (t : List (String × α)) (k : String) : Option α :=
  (List.find? (fun kv => kv.1 = k) t).map (fun kv => kv.2)

/-- `obj[k] = v`: overwrite the binding if present, append otherwise. -/
def jsMapSet {α : Type} : List (String × α) → String → α → List (String × α)
  | [], k, v => [(k, v)]
  | kv :: rest, k, v =>
    if kv.1 = k then (k, v) :: rest else kv :: jsMapSet rest k v

/-- `delete obj[k]`: remove the binding for the key, if any. -/
def jsMapDel {α : Type} : List (String × α) → String → List (String × α)
  | [], _ => []
  | kv :: rest, k =>
    if kv.1 = k then rest else kv :: jsMapDel rest k

/-- JS array element assignment `a[i] = x` for `i ≤ a.length`: replace in
place when `i < a.length`, append when `i = a.length`. -/
def jsArraySet {α : Type} (l : List α) (i : Nat) (a : α) : List α :=
  if i < l.length then l.set i a else l ++ [a]

/-! ### SourceDatabase (lib/database.js) -/

/-- A source-file record as built by `SourceDatabase.prototype.create`.
`writeTime` is the stat mtime (compared via `getTime()`), `fileSize` the stat
size. -/
structure SourceEntry where
  relativePath : String
  resourceName : String
  resourceType : String
  platform     : String
  properties   : List String
  references   : List String
  dependencies : List String
  writeTime    : Int
  fileSize     : Int
deriving Repr, DecidableEq

/-- The `SourceDatabase` state: record list, side index from `relativePath` to
list position, and the dirty flag. -/
structure SourceDatabase where
  resourceRoot : String
  bundleName   : String
  entries      : List SourceEntry
  entryTable   : List (String × Nat)
  dirty        : Bool
deriving Repr, DecidableEq

namespace SourceDatabase

/-- An empty database as produced by the constructor. -/
def empty : SourceDatabase :=
  { resourceRoot := "", bundleName := "", entries := [], entryTable := [], dirty := false }

/-- `SourceDatabase.prototype.load`, given the parsed document content:
replace all state and rebuild the key index from the entry list. -/
def load (db : SourceDatabase) (bundleName : String) (entries : List SourceEntry) :
    SourceDatabase :=
  { db with
    bundleName := bundleName
    entries    := entries
    entryTable := (entries.enum.map (fun p => (p.2.relativePath, p.1)))
    dirty      := false }

/-- `SourceDatabase.prototype.create(rootPath, sourcePath)`: stat the file
(`none` models the `statSync` throw for a missing file), parse the path
relative to `resourceRoot`, and build a fresh record (not inserted). -/
def create (disk : Disk) (db : SourceDatabase) (rootPath sourcePath : String) :
    Option SourceEntry :=
  (diskStat disk sourcePath).map fun stats =>
    let parts := parseResourcePath (pathRelative db.resourceRoot sourcePath)
    { relativePath := pathRelative rootPath sourcePath
      resourceName := parts.resourceName
      resourceType := parts.resourceType
      platform     := ""
      properties   := parts.properties
      references   := []
      dependencies := []
      writeTime    := stats.mtime
      fileSize     := stats.size }

/-- `SourceDatabase.prototype.query(rootPath, sourcePath)`: look the relative
path up in the side index and return `entries[index]` (`undefined`, i.e.
`none`, when the index is absent or out of range). -/
def query (db : SourceDatabase) (rootPath sourcePath : String) : Option SourceEntry :=
  match jsMapGet db.entryTable (pathRelative rootPath sourcePath) with
  | some index => db.entries.get? index
  | none       => none

/-- `SourceDatabase.prototype.insert(entry)`: reuse the indexed position when
the key is already bound (overwriting whatever record sits there), append
otherwise; always sets the dirty flag. -/
def insert (db : SourceDatabase) (entry : SourceEntry) : SourceDatabase :=
  let key := entry.relativePath
  let index :=
    match jsMapGet db.entryTable key with
    | some existing => existing
    | none          => db.entries.length
  { db with
    entries    := jsArraySet db.entries index entry
    entryTable := jsMapSet db.entryTable key index
    dirty      := true }

/-- `SourceDatabase.prototype.remove(rootPath, sourcePath)`: drop the binding
from the side index and splice the entry out of the list.  Note the positions
of the remaining bindings in `entryTable` are NOT adjusted. -/
def remove (db : SourceDatabase) (rootPath sourcePath : String) : SourceDatabase :=
  let relPath := pathRelative rootPath sourcePath
  match jsMapGet db.entryTable relPath with
  | some index =>
    { db with
      entryTable := jsMapDel db.entryTable relPath
      entries    := db.entries.eraseIdx index
      dirty      := true }
  | none => db

/-- `SourceDatabase.prototype.dependency(entry, rootPath, i)`:
`Path.join(rootPath, entry.dependencies[i])`, expressed per element. -/
def dependencyPath (rootPath dep : String) : String :=
  pathJoin rootPath dep

/-- `SourceDatabase.prototype.addReference(entry, rootPath, sourcePath)`:
push the relative path onto `entry.references` iff not already present.
The source mutates the record in place; the updated record is returned. -/
def addReference (entry : SourceEntry) (rootPath sourcePath : String) : SourceEntry :=
  let relPath := pathRelative rootPath sourcePath
  if relPath ∈ entry.references then entry
  else { entry with references := entry.references ++ [relPath] }

/-- `SourceDatabase.prototype.addDependency(entry, rootPath, sourcePath)`:
push the relative path onto `entry.dependencies` iff not already present. -/
def addDependency (entry : SourceEntry) (rootPath sourcePath : String) : SourceEntry :=
  let relPath := pathRelative rootPath sourcePath
  if relPath ∈ entry.dependencies then entry
  else { entry with dependencies := entry.dependencies ++ [relPath] }

/-- In-place mutation of the record that `query` would return for a key:
rewrite the stored entry at the indexed position. -/
def modifyEntry (db : SourceDatabase) (key : String) (f : SourceEntry → SourceEntry) :
    SourceDatabase :=
  match jsMapGet db.entryTable key with
  | some index =>
    match db.entries.get? index with
    | some e => { db with entries := db.entries.set index (f e) }
    | none   => db
  | none => db

end SourceDatabase

/-! ### TargetDatabase (lib/database.js) -/

/-- A target-file record as built by `TargetDatabase.prototype.create`. -/
structure TargetEntry where
  relativePath : String
  sourcePath   : String
  platform     : String
  compilerName : String
  outputs      : List String
deriving Repr, DecidableEq

/-- The `TargetDatabase` state. -/
structure TargetDatabase where
  resourceRoot : String
  bundleName   : String
  platform     : String
  entries      : List TargetEntry
  entryTable   : List (String × Nat)
  dirty        : Bool
deriving Repr, DecidableEq

namespace TargetDatabase

/-- An empty database as produced by the constructor. -/
def empty : TargetDatabase :=
  { resourceRoot := "", bundleName := "", platform := "", entries := [],
    entryTable := [], dirty := false }

/-- `TargetDatabase.prototype.create(rootPath, sourcePath, targetPath,
compilerName, compilerVersion)`: a fresh record with no outputs (the
`compilerVersion` argument is accepted and dropped, as in the source). -/
def create (db : TargetDatabase) (rootPath sourcePath targetPath compilerName : String) :
    TargetEntry :=
  { relativePath := pathRelative rootPath targetPath
    sourcePath   := pathRelative rootPath sourcePath
    platform     := db.platform
    compilerName := compilerName
    outputs      := [] }

/-- `TargetDatabase.prototype.query(rootPath, targetPath)`. -/
def query (db : TargetDatabase) (rootPath targetPath : String) : Option TargetEntry :=
  match jsMapGet db.entryTable (pathRelative rootPath targetPath) with
  | some index => db.entries.get? index
  | none       => none

/-- `TargetDatabase.prototype.insert(entry)`: identical logic to the source
database insert. -/
def insert (db : TargetDatabase) (entry : TargetEntry) : TargetDatabase :=
  let key := entry.relativePath
  let index :=
    match jsMapGet db.entryTable key with
    | some existing => existing
    | none          => db.entries.length
  { db with
    entries    := jsArraySet db.entries index entry
    entryTable := jsMapSet db.entryTable key index
    dirty      := true }

/-- `TargetDatabase.prototype.remove(rootPath, targetPath)`: identical logic
to the source database remove, with the same unadjusted side index. -/
def remove (db : TargetDatabase) (rootPath targetPath : String) : TargetDatabase :=
  let relPath := pathRelative rootPath targetPath
  match jsMapGet db.entryTable relPath with
  | some index =>
    { db with
      entryTable := jsMapDel db.entryTable relPath
      entries    := db.entries.eraseIdx index
      dirty      := true }
  | none => db

/-- `TargetDatabase.prototype.output(entry, rootPath, i)`:
`Path.join(rootPath, entry.outputs[i])`, expressed per element. -/
def outputPath (rootPath out : String) : String :=
  pathJoin rootPath out

/-- `TargetDatabase.prototype.addOutput(entry, rootPath, outputPath)`: push
the relative path onto `entry.outputs` iff not already present. -/
def addOutput (entry : TargetEntry) (rootPath outputPath : String) : TargetEntry :=
  let relPath := pathRelative rootPath outputPath
  if relPath ∈ entry.outputs then entry
  else { entry with outputs := entry.outputs ++ [relPath] }

end TargetDatabase

/-! ### JavaScript exceptions -/

/-- Exceptions of the embedded fragments: a throwing `fs.statSync`, the
`ReferenceError` raised by the undeclared variable `bundle` in
`TargetBuilder.prototype.dependenciesModified`, and the `TypeError`s raised by
reading a property of `null` (`cproc.pid` in `Monitor.prototype.start`,
`task.input` in `CompilerCache.prototype.handleMonitorMessage`). -/
inductive JsError where
  | statThrow
  | referenceErrorBundle
  | nullPidTypeError
  | nullFrontTypeError
deriving Repr, DecidableEq

deriving instance DecidableEq for Except

/-! ### TargetBuilder rebuild decision (lib/project.js) -/

/-- `TargetBuilder.prototype.sourceFileModified(entry, stat)`: compare the
stored mtime (`getTime()`) and size against the current stat. -/
def sourceFileModified (entry : SourceEntry) (stat : FileStat) : Bool :=
  if stat.mtime ≠ entry.writeTime then true
  else if stat.size ≠ entry.fileSize then true
  else false

/-- The dependency loop of `TargetBuilder.prototype.dependenciesModified`:

    for (var i = 0, n = entry.dependencies.length; i < n; ++i) {
        var  d = db.dependency(entry, root, i);
        var  e = db.query(root, d);
        if (!e || e.dependenciesModified(bundle, e))
            return true;
    }
    return false;

When the queried entry exists, the call `e.dependenciesModified(bundle, e)`
first evaluates the argument `bundle`, an undeclared variable in this scope,
raising a `ReferenceError` (and `e`, a plain record, has no such method
either); the loop therefore never gets past its first iteration with a live
dependency. -/
def dependenciesModifiedLoop (db : SourceDatabase) (root : String) :
    List String → Except JsError Bool
  | [] => .ok false
  | dep :: _rest =>
    let d := SourceDatabase.dependencyPath root dep
    match db.query root d with
    | none   => .ok true
    | some _ => .error JsError.referenceErrorBundle

/-- `TargetBuilder.prototype.dependenciesModified(entry)`: stat the file and
compare, then run the dependency loop; the whole body is wrapped in
`try/catch` with `catch` returning `true`. -/
def dependenciesModified (disk : Disk) (db : SourceDatabase) (root : String)
    (entry : SourceEntry) : Bool :=
  let body : Except JsError Bool :=
    match diskStat disk (pathJoin root entry.relativePath) with
    | none => .error JsError.statThrow
    | some stat =>
      if sourceFileModified entry stat then .ok true
      else dependenciesModifiedLoop db root entry.dependencies
  match body with
  | .ok b => b
  | .error _ => true

/-- `TargetBuilder.prototype.buildOutputsExist(targetPath)`: if the target DB
knows the resource, every declared output must exist on disk; an unknown
target resource counts as existing. -/
def buildOutputsExist (disk : Disk) (tdb : TargetDatabase) (root targetPath : String) :
    Bool :=
  match tdb.query root targetPath with
  | some entry =>
    entry.outputs.all (fun o => diskIsFile disk (TargetDatabase.outputPath root o))
  | none => true

/-- `TargetBuilder.prototype.requiresRebuild(entry, targetPath)`. -/
def requiresRebuild (disk : Disk) (sdb : SourceDatabase) (tdb : TargetDatabase)
    (root : String) (entry : SourceEntry) (targetPath : String) : Bool :=
  if dependenciesModified disk sdb root entry then true
  else if buildOutputsExist disk tdb root targetPath = false then true
  else false

/-- `TargetBuilder.prototype.determinePlatform(properties)`: the first
property equal to a recognised platform name, else `'generic'`. -/
def determinePlatform (platforms : List String) (properties : List String) : String :=
  match properties.find? (fun p => platforms.contains p) with
  | some p => p
  | none   => "generic"

/-! ### TargetBuilder events and result ingestion (lib/project.js) -/

/-- Events emitted by a `TargetBuilder`.  The `sourcePath` of a skipped event
is an `Option` because `handleFileSkipped` forwards `result.sourcePath` from
the pool's skipped payload, a field the payload does not carry (it holds
`input.sourcePath` instead), so pipeline-level skips carry `undefined`
(`none`) there, while up-to-date skips carry the real path. -/
inductive BuilderEv where
  | started (projectName packageName sourcePath targetPath compilerName : String)
  | skipped (projectName packageName : String) (sourcePath : Option String)
            (targetPath reason : String)
  | success (projectName packageName sourcePath targetPath compilerName : String)
            (outputs : List String)
  | error (projectName packageName sourcePath targetPath compilerName : String)
          (errors : List String)
deriving Repr, DecidableEq

/-- One record of `TargetBuilder.sourceFiles`, as built by `checkSourceFile`. -/
structure BuildInfo where
  resourceName : String
  sourceEntry  : SourceEntry
  sourcePath   : String
  targetPath   : String
  platform     : String
deriving Repr, DecidableEq

/-- `TargetBuilder.prototype.determineBuildFiles(sourceFiles)`: keep the
candidates that require a rebuild; emit an up-to-date skipped event for every
candidate that has a record and does not.  Returns the kept subset and the
events, in order. -/
def determineBuildFiles (disk : Disk) (sdb : SourceDatabase) (tdb : TargetDatabase)
    (root projectName packageName : String) (sourceFiles : List BuildInfo) :
    List BuildInfo × List BuilderEv :=
  sourceFiles.foldl
    (fun acc info =>
      match sdb.query root info.sourcePath with
      | some existing =>
        if requiresRebuild disk sdb tdb root existing info.targetPath = false then
          (acc.1,
           acc.2 ++ [BuilderEv.skipped projectName packageName (some info.sourcePath)
                       info.targetPath "Source file is up-to-date"])
        else (acc.1 ++ [info], acc.2)
      | none => (acc.1 ++ [info], acc.2))
    ([], [])

/-- The input record that `TargetBuilder.prototype.rebuildFiles` passes to
`compilers.build` for one source file. -/
structure BuildInput where
  sourcePath   : String
  targetPath   : String
  sourceEntry  : SourceEntry
  resourceName : String
  resourceType : String
  platform     : String
deriving Repr, DecidableEq

/-- The body of the `rebuildFiles` loop: package one `BuildInfo` as the
`compilers.build` input. -/
def mkBuildInput (info : BuildInfo) : BuildInput :=
  { sourcePath   := info.sourcePath
    targetPath   := info.targetPath
    sourceEntry  := info.sourceEntry
    resourceName := info.sourceEntry.resourceName
    resourceType := info.sourceEntry.resourceType
    platform     := info.sourceEntry.platform }

/-- The pool's `complete` payload as consumed by
`TargetBuilder.prototype.handleFileComplete`. -/
structure CompleteResult where
  input           : BuildInput
  compilerName    : String
  compilerVersion : Int
  targetPath      : String
  success         : Bool
  errors          : List String
  outputs         : List String
  references      : List String
deriving Repr, DecidableEq

/-- `TargetBuilder.prototype.handleFileComplete(compilers, result)`.  On
success: insert the source entry; for each reported reference, upsert a
source record for it (assigning its platform by `determinePlatform`), add a
reference link back to the source and a dependency link from the source; then
build and insert the target entry carrying all reported outputs; emit
`success`.  On failure: emit `error` and leave both databases untouched.
`SourceDatabase.create` throwing on a missing reference file propagates. -/
def handleFileComplete (disk : Disk) (platforms : List String)
    (projectName packageName root : String)
    (sdb : SourceDatabase) (tdb : TargetDatabase) (result : CompleteResult) :
    Except JsError (SourceDatabase × TargetDatabase × BuilderEv) :=
  let sourceEntry := result.input.sourceEntry
  let sourcePath  := result.input.sourcePath
  let targetPath  := result.input.targetPath
  if result.success then do
    let step : SourceDatabase → String → Except JsError SourceDatabase :=
      fun db ref => do
        let db ←
          match db.query root ref with
          | some _ => pure db
          | none   =>
            match SourceDatabase.create disk db root ref with
            | none => throw JsError.statThrow
            | some re =>
              pure (db.insert { re with platform := determinePlatform platforms re.properties })
        let db := db.modifyEntry (pathRelative root ref)
                    (fun e => SourceDatabase.addReference e root sourcePath)
        let db := db.modifyEntry sourceEntry.relativePath
                    (fun e => SourceDatabase.addDependency e root ref)
        pure db
    let sdb1 ← result.references.foldlM step (sdb.insert sourceEntry)
    let te0 := TargetDatabase.create tdb root sourcePath targetPath result.compilerName
    let te  := result.outputs.foldl (fun e o => TargetDatabase.addOutput e root o) te0
    let tdb1 := tdb.insert te
    pure (sdb1, tdb1,
      BuilderEv.success projectName packageName sourcePath targetPath
        result.compilerName result.outputs)
  else
    .ok (sdb, tdb,
      BuilderEv.error projectName packageName sourcePath targetPath
        result.compilerName result.errors)

/-! ### Manifest and package completion (lib/project.js) -/

/-- `TargetBuilder.prototype.packageManifestExists('package.manifest')`. -/
def packageManifestExists (disk : Disk) (targetDirPath : String) : Bool :=
  diskIsFile disk (pathJoin targetDirPath "package.manifest")

/-- Result of `PackageBuilder.prototype.targetComplete`: the databases after
any saves (a save clears the dirty flag), which DB files were written, and
whether the package manifest was (re)written. -/
structure TargetCompleteResult where
  sourceDb      : SourceDatabase
  targetDb      : TargetDatabase
  savedSource   : Bool
  savedTarget   : Bool
  wroteManifest : Bool
deriving Repr, DecidableEq

/-- `PackageBuilder.prototype.targetComplete(targetBuilder)`: save each dirty
database; regenerate the manifest iff something was modified (a DB was saved
or the manifest file is absent) and the error counter is zero. -/
def targetComplete (disk : Disk) (sdb : SourceDatabase) (tdb : TargetDatabase)
    (targetDirPath : String) (errors : Nat) : TargetCompleteResult :=
  let s := if sdb.dirty then ({ sdb with dirty := false }, true) else (sdb, false)
  let t := if tdb.dirty then ({ tdb with dirty := false }, true) else (tdb, false)
  let wasModified := s.2 || t.2 || !(packageManifestExists disk targetDirPath)
  { sourceDb      := s.1
    targetDb      := t.1
    savedSource   := s.2
    savedTarget   := t.2
    wroteManifest := wasModified && (errors == 0) }

/-- The payload of the `finish` event built by
`PackageBuilder.prototype.notifyComplete`. -/
structure FinishEv where
  projectName  : String
  packageName  : String
  targetName   : String
  successCount : Nat
  skippedCount : Nat
  errorCount   : Nat
  success      : Bool
deriving Repr, DecidableEq

/-- `PackageBuilder.prototype.notifyComplete`: `success` is
`errors === 0 ? true : false`. -/
def notifyComplete (projectName packageName targetName : String)
    (successCount skippedCount errorCount : Nat) : FinishEv :=
  { projectName  := projectName
    packageName  := packageName
    targetName   := targetName
    successCount := successCount
    skippedCount := skippedCount
    errorCount   := errorCount
    success      := if errorCount = 0 then true else false }

/-! ### CompilerCache routing (lib/compiler.js) -/

/-- `CompilerCache.prototype.findCompiler(resourceType, platformName)`:
prefer the platform-specific route `type.platform`, falling back to the
generic route `type`.  An empty `platformName` is falsy, so it defaults to
`'generic'`.  Monitors are identified by a numeric handle. -/
def findCompiler (compilers : List (String × Nat)) (resourceType platformName : String) :
    String × Option Nat :=
  let platformName := if platformName = "" then "generic" else platformName
  let name1 := resourceType ++ "." ++ platformName
  let name2 := resourceType
  match jsMapGet compilers name1 with
  | some dc => (name1, some dc)
  | none    => (name2, jsMapGet compilers name2)

/-- Outcome of `CompilerCache.prototype.build(targetPath, input)`: either the
job is submitted to the routed monitor's queue, or a `skipped` event is
emitted. -/
inductive CacheOutcome where
  | submitted (compilerName : String) (monitor : Nat) (targetPath : String)
              (input : BuildInput)
  | skipped (targetPath : String) (input : BuildInput) (reason : String)
deriving Repr, DecidableEq

/-- `CompilerCache.prototype.build(targetPath, input)`. -/
def cacheBuild (compilers : List (String × Nat)) (targetPath : String)
    (input : BuildInput) : CacheOutcome :=
  let type     := input.resourceType
  let platform := input.platform
  let info     := findCompiler compilers type platform
  match info.2 with
  | some m => CacheOutcome.submitted info.1 m targetPath input
  | none   =>
    CacheOutcome.skipped targetPath input
      ("No data compiler for resource type " ++ type)

/-- `CompilerCache.prototype.checkReadyStatus()`. -/
def checkReadyStatus (waitCount : Nat) : Bool :=
  waitCount = 0

/-- Pool-level events relevant to supervisor startup. -/
inductive PoolEv where
  | error (resourceType scriptPath : String)
  | ready
  | terminated
deriving Repr, DecidableEq

/-- `CompilerCache.prototype.handleMonitorError(monitor, error)`: re-emit as a
pool `error` carrying `monitor.types[0]` and `monitor.scriptPath`. -/
def handleMonitorError (types : List String) (scriptPath : String) : PoolEv :=
  PoolEv.error (types.headD "") scriptPath

/-! ### Per-supervisor job queue (lib/compiler.js) -/

/-- Pool events produced around one supervisor's `JobQueue`: `started` when a
job is begun (the `execute` handler emits `started` and sends the
`BUILD_REQUEST`), `complete` when a `BUILD_RESULT` is attributed to the job at
the head of the queue, `drain` when the queue empties. -/
inductive QueueEv where
  | started (job : Nat)
  | complete (job : Nat)
  | drain
deriving Repr, DecidableEq

/-- External stimuli on one supervisor's queue: a submission from
`CompilerCache.build`, or a `BUILD_RESULT` message from the worker. -/
inductive QueueAct where
  | submit (job : Nat)
  | buildResult
deriving Repr, DecidableEq

/-- One step of the queue system.

`submit`: `JobQueue.prototype.submit` pushes and, when the queue length has
just become 1, fires `execute`, which begins the job (`started`).

`buildResult`: `CompilerCache.prototype.handleMonitorMessage` takes
`task = queue.front()`, emits `complete` attributed to that head task, then
`JobQueue.prototype.complete` shifts the head and fires `execute` for the next
job if any, else `drain`.  With an empty queue `front()` is `null` and
`task.input` raises a `TypeError`. -/
def queueStep : List Nat → QueueAct → Except JsError (List Nat × List QueueEv)
  | q, QueueAct.submit j =>
    let q1 := q ++ [j]
    .ok (q1, if q1.length = 1 then [QueueEv.started j] else [])
  | [], QueueAct.buildResult => .error JsError.nullFrontTypeError
  | j :: rest, QueueAct.buildResult =>
    .ok (rest, QueueEv.complete j ::
      (match rest with
       | []     => [QueueEv.drain]
       | k :: _ => [QueueEv.started k]))

/-- Run a sequence of stimuli through the queue, accumulating events. -/
def queueRun : List Nat → List QueueAct → Except JsError (List Nat × List QueueEv)
  | q, [] => .ok (q, [])
  | q, a :: rest =>
    match queueStep q a with
    | .error e => .error e
    | .ok (q1, evs1) =>
      match queueRun q1 rest with
      | .error e => .error e
      | .ok (q2, evs2) => .ok (q2, evs1 ++ evs2)

/-- The jobs submitted by a stimulus sequence, in order. -/
def submitsOf (acts : List QueueAct) : List Nat :=
  acts.filterMap (fun a =>
    match a with
    | QueueAct.submit j => some j
    | QueueAct.buildResult => none)

/-- The jobs for which a `complete` event was emitted, in order. -/
def completesOf (evs : List QueueEv) : List Nat :=
  evs.filterMap (fun e =>
    match e with
    | QueueEv.complete j => some j
    | _ => none)

/-! ### Monitor (lib/monitor.js) -/

/-- The supervisor state fields touched by `start` and `kill`. -/
structure MonitorState where
  scriptPath      : String
  isRunning       : Bool
  forceExit       : Bool
  canSendIPC      : Bool
  startCount      : Nat
  maxRestartCount : Nat
  childPid        : Nat
  childProcess    : Option Nat
deriving Repr, DecidableEq

/-- Supervisor events. -/
inductive MonitorEv where
  | start
  | restart
  | exit
  | stop
  | error
deriving Repr, DecidableEq

/-- Result of `Monitor.prototype.start`: the new state, the events emitted or
scheduled on the next tick, and whether an exception escaped `start` itself. -/
structure MonitorStartResult where
  state     : MonitorState
  scheduled : List MonitorEv
  thrown    : Bool
deriving Repr, DecidableEq

/-- `Monitor.prototype.start(isRestart)`.  `spawn` is the outcome of
`ChildProcess.fork`: `some pid` on success, `none` when `fork` throws.

On a fork throw the `catch` block schedules the `error` event on the next
tick and does NOT return; execution continues with `cproc` still `null`, so
the subsequent `this.childPid = cproc.pid` raises a `TypeError` that escapes
`start()` (`thrown := true`); the `start` event is never reached. -/
def monitorStart (m : MonitorState) (isRestart : Bool) (spawn : Option Nat) :
    MonitorStartResult :=
  if m.isRunning || m.forceExit then
    { state := m, scheduled := [], thrown := false }
  else
    let m1 := if isRestart = false then { m with startCount := 0 } else m
    if isRestart && decide (0 < m1.maxRestartCount) &&
       decide (m1.maxRestartCount ≤ m1.startCount) then
      { state := m1, scheduled := [MonitorEv.exit], thrown := false }
    else
      match spawn with
      | none =>
        { state := m1, scheduled := [MonitorEv.error], thrown := true }
      | some pid =>
        { state :=
            { m1 with
              childPid     := pid
              childProcess := some pid
              isRunning    := true
              canSendIPC   := true
              startCount   := m1.startCount + 1 }
          scheduled := [if isRestart then MonitorEv.restart else MonitorEv.start]
          thrown := false }

/-- `Monitor.prototype.kill(allowRestart)`: a no-op when there is no running
child (`!this.childProcess || !this.isRunning`); otherwise set `forceExit`
(`allowRestart ? false : true`, with the undefined argument defaulting to
`true`), drop the IPC channel, signal the child, and emit `stop`. -/
def monitorKill (m : MonitorState) (allowRestart : Option Bool) :
    MonitorState × List MonitorEv :=
  if m.childProcess.isNone || !m.isRunning then
    (m, [])
  else
    let ar := match allowRestart with
      | some b => b
      | none   => true
    ({ m with forceExit := if ar then false else true, canSendIPC := false },
     [MonitorEv.stop])

/-! ### The synchronous portion of PackageBuilder.buildTarget (lib/project.js) -/

/-- Aggregate outcome of the synchronous phase of
`PackageBuilder.prototype.buildTarget`: the events emitted after the counters
were armed, the counter values, submitted-but-unfinished jobs, and, when the
expectation counter reached zero synchronously, the completion work
(`targetComplete`) and the `finish` payload. -/
structure RunOutcome where
  events       : List BuilderEv
  skippedCount : Nat
  errorCount   : Nat
  successCount : Nat
  expect       : Nat
  pending      : List BuildInput
  finish       : Option FinishEv
  tc           : Option TargetCompleteResult
deriving Repr, DecidableEq

/-- The synchronous phase of `PackageBuilder.prototype.buildTarget` for a
given candidate list (`sourceFiles` stands for the result of the
`determineSourceFiles` walk, whose own skipped events precede these):
run `determineBuildFiles` (its up-to-date skips are counted by
`handleFileSkipped` but, `started` being still false, do not decrement
`expect`), arm `expect` with the number of build files, then `rebuildFiles`:
each submission either reaches a routed compiler (job becomes pending, the
queue emits `started`) or is skipped synchronously by the pool; each
synchronous skip decrements `expect`.  When `expect` reaches zero without
pending jobs — including the explicit `0 === buildFiles.length` branch —
`targetComplete` runs and `finish` is emitted. -/
def buildTargetRun (disk : Disk) (compilers : List (String × Nat))
    (projectName packageName targetName : String)
    (sdb : SourceDatabase) (tdb : TargetDatabase)
    (root targetDirPath : String) (sourceFiles : List BuildInfo) : RunOutcome :=
  let g2 := determineBuildFiles disk sdb tdb root projectName packageName sourceFiles
  let buildFiles := g2.1
  let skipEvs    := g2.2
  let sync := buildFiles.foldl
    (fun (acc : Nat × Nat × List BuilderEv × List BuildInput) info =>
      match cacheBuild compilers info.targetPath (mkBuildInput info) with
      | CacheOutcome.skipped tp _input reason =>
        (acc.1 + 1, acc.2.1 - 1,
         acc.2.2.1 ++ [BuilderEv.skipped projectName packageName none tp reason],
         acc.2.2.2)
      | CacheOutcome.submitted cn _ tp input =>
        (acc.1, acc.2.1,
         acc.2.2.1 ++ [BuilderEv.started projectName packageName input.sourcePath tp cn],
         acc.2.2.2 ++ [input]))
    (skipEvs.length, buildFiles.length, skipEvs, [])
  let skippedN := sync.1
  let expectN  := sync.2.1
  let evs      := sync.2.2.1
  let pending  := sync.2.2.2
  if expectN = 0 then
    { events       := evs
      skippedCount := skippedN
      errorCount   := 0
      successCount := 0
      expect       := 0
      pending      := pending
      finish       := some (notifyComplete projectName packageName targetName 0 skippedN 0)
      tc           := some (targetComplete disk sdb tdb targetDirPath 0) }
  else
    { events       := evs
      skippedCount := skippedN
      errorCount   := 0
      successCount := 0
      expect       := expectN
      pending      := pending
      finish       := none
      tc           := none }

/-! ### Database consistency checkers -/

/-- The primary keys of a source database, in list order. -/
def sdbKeys (db : SourceDatabase) : List String :=
  db.entries.map (fun e => e.relativePath)

/-- The 1-to-1 correspondence between the side index and the entry list of a
source database: every binding points at the entry bearing its key, and every
entry's key is bound to its own position. -/
def sdbConsistent (db : SourceDatabase) : Bool :=
  db.entryTable.all (fun kv =>
    match db.entries.get? kv.2 with
    | some e => e.relativePath = kv.1
    | none   => false) &&
  (List.range db.entries.length).all (fun i =>
    match db.entries.get? i with
    | some e => jsMapGet db.entryTable e.relativePath = some i
    | none   => false)

/-- The primary keys of a target database, in list order. -/
def tdbKeys (db : TargetDatabase) : List String :=
  db.entries.map (fun e => e.relativePath)

/-- The 1-to-1 correspondence checker for a target database. -/
def tdbConsistent (db : TargetDatabase) : Bool :=
  db.entryTable.all (fun kv =>
    match db.entries.get? kv.2 with
    | some e => e.relativePath = kv.1
    | none   => false) &&
  (List.range db.entries.length).all (fun i =>
    match db.entries.get? i with
    | some e => jsMapGet db.entryTable e.relativePath = some i
    | none   => false)

/-! ### Concrete fixtures

A small package `demo` rooted at `/pkg`: one source file `a.txt` whose stored
record depends on `b.inc`, both unchanged on disk, with the declared build
output present, plus the `foo.unknown` / empty-pipeline scenario and the
insert/remove sequences for the index invariant. -/

/-- The stored record for `a.txt` (names as `parseResourcePath` yields them):
unchanged on disk, with one recorded dependency. -/
def entryA : SourceEntry :=
  { relativePath := "a.txt"
    resourceName := "a"
    resourceType := "txt"
    platform     := "generic"
    properties   := [""]
    references   := []
    dependencies := ["b.inc"]
    writeTime    := 100
    fileSize     := 5 }

/-- The stored record for the dependency `b.inc`, also unchanged on disk. -/
def entryB : SourceEntry :=
  { relativePath := "b.inc"
    resourceName := "b"
    resourceType := "inc"
    platform     := "generic"
    properties   := [""]
    references   := ["a.txt"]
    dependencies := []
    writeTime    := 50
    fileSize     := 3 }

/-- The stored target record for `a.txt`, with its single output. -/
def targetEntryA : TargetEntry :=
  { relativePath := "t/x1"
    sourcePath   := "a.txt"
    platform     := "generic"
    compilerName := "txt"
    outputs      := ["t/x1.dat"] }

/-- The source database after a completed first build of the demo package. -/
def sdbA : SourceDatabase :=
  { resourceRoot := "/pkg"
    bundleName   := "demo"
    entries      := [entryA, entryB]
    entryTable   := [("a.txt", 0), ("b.inc", 1)]
    dirty        := false }

/-- The target database after a completed first build of the demo package. -/
def tdbA : TargetDatabase :=
  { resourceRoot := "/pkg/t"
    bundleName   := "demo"
    platform     := "generic"
    entries      := [targetEntryA]
    entryTable   := [("t/x1", 0)]
    dirty        := false }

/-- The filesystem matching the stored records exactly: same mtimes and
sizes, build output present. -/
def diskA : Disk :=
  [("/pkg/a.txt", { mtime := 100, size := 5 }),
   ("/pkg/b.inc", { mtime := 50, size := 3 }),
   ("/pkg/t/x1.dat", { mtime := 10, size := 7 })]

/-- `diskA` with the package manifest also present (state after a completed
first build). -/
def diskAM : Disk :=
  ("/pkg/t/package.manifest", { mtime := 1, size := 1 }) :: diskA

/-- The `sourceFiles` candidate for `a.txt` as `checkSourceFile` builds it on
a second, unchanged run. -/
def infoA : BuildInfo :=
  { resourceName := "a"
    sourceEntry  := entryA
    sourcePath   := "/pkg/a.txt"
    targetPath   := "/pkg/t/x1"
    platform     := "generic" }

/-- A successful pool result for `a.txt` reporting one output and no
references. -/
def resultA : CompleteResult :=
  { input           := mkBuildInput infoA
    compilerName    := "txt"
    compilerVersion := 1
    targetPath      := "/pkg/t/x1"
    success         := true
    errors          := []
    outputs         := ["/pkg/t/x1.dat"]
    references      := [] }

/-- A failed pool result for `a.txt`. -/
def resultFail : CompleteResult :=
  { resultA with success := false, errors := ["boom"] }

/-- A minimal source record with a given key (remaining fields blank), for
exercising insert/remove sequences. -/
def mkSrcEntry (k : String) : SourceEntry :=
  { relativePath := k, resourceName := k, resourceType := "", platform := ""
    properties := [], references := [], dependencies := []
    writeTime := 0, fileSize := 0 }

/-- A minimal target record with a given key. -/
def mkTgtEntry (k : String) : TargetEntry :=
  { relativePath := k, sourcePath := k, platform := "", compilerName := ""
    outputs := [] }

/-- Insert `a` then `b` into an empty source database. -/
def sdbSeq2 : SourceDatabase :=
  (SourceDatabase.empty.insert (mkSrcEntry "a")).insert (mkSrcEntry "b")

/-- ... then remove `a`: the binding for `b` still carries position 1 while
`b` now sits at position 0 of a one-element list. -/
def sdbSeq3 : SourceDatabase :=
  sdbSeq2.remove "/pkg" "/pkg/a"

/-- ... then insert `b` again: the stale index appends instead of
overwriting. -/
def sdbSeq4 : SourceDatabase :=
  sdbSeq3.insert (mkSrcEntry "b")

/-- The same sequence on a target database. -/
def tdbSeq3 : TargetDatabase :=
  ((TargetDatabase.empty.insert (mkTgtEntry "a")).insert (mkTgtEntry "b")).remove
    "/pkg" "/pkg/a"

/-- The filesystem for the `foo.unknown` scenario: just the one source file. -/
def diskU : Disk :=
  [("/pkg/foo.unknown", { mtime := 7, size := 9 })]

/-- The candidate record for `foo.unknown` after `checkSourceFile` assigned
its platform (`determinePlatform` of `[""]` is `generic`). -/
def entryU : SourceEntry :=
  { relativePath := "foo.unknown"
    resourceName := "foo"
    resourceType := "unknown"
    platform     := "generic"
    properties   := [""]
    references   := []
    dependencies := []
    writeTime    := 7
    fileSize     := 9 }

/-- A source database for the demo package with a chosen dirty flag: `false`
models a database loaded from an existing file, `true` one freshly created by
`loadSourceDatabase` because no file existed. -/
def sdbU (ds : Bool) : SourceDatabase :=
  { SourceDatabase.empty with resourceRoot := "/pkg", bundleName := "demo", dirty := ds }

/-- The matching target database with a chosen dirty flag. -/
def tdbU (dt : Bool) : TargetDatabase :=
  { TargetDatabase.empty with bundleName := "demo", platform := "generic", dirty := dt }

/-- The target directory of the demo package's generic target. -/
def tDirU : String := "/pkg/demo.generic.target"

/-- The `sourceFiles` candidate for `foo.unknown`. -/
def infoU : BuildInfo :=
  { resourceName := "foo"
    sourceEntry  := entryU
    sourcePath   := "/pkg/foo.unknown"
    targetPath   := targetPathFor tDirU "foo"
    platform     := "generic" }

/-- The synchronous build run for `foo.unknown` against an empty pipeline. -/
def runU (ds dt : Bool) : RunOutcome :=
  buildTargetRun diskU [] "proj" "demo" "generic" (sdbU ds) (tdbU dt) "/pkg" tDirU [infoU]

/-- The part of `parseResourcePath` between the first and the last dot
(the `ps` local of the source), named so theorems can refer to it. -/
def interDotSubstring (pn : String) : List Char :=
  let l  := pn.data
  let ls := jsLastIndexOf l pathSep
  let fp := jsIndexOfFrom l '.' (ls + 1)
  let lp := jsLastIndexOf l '.'
  if fp = lp then [] else jsSubstring l (fp + 1) lp

/-- A supervisor that has not yet spawned its child, with the config used by
the demo pipeline. -/
def monU : MonitorState :=
  { scriptPath := "/proc/png.js"
    isRunning := false
    forceExit := false
    canSendIPC := false
    startCount := 0
    maxRestartCount := 0
    childPid := 0
    childProcess := none }

/-- A supervisor whose child has exited (`childProcess` cleared). -/
def monDead : MonitorState :=
  { monU with isRunning := false, childProcess := none, startCount := 2 }

/-! ## Theorems -/

/-! ### Helper lemmas -/

theorem jsFindIdx_eq_none_of_not_mem (c : Char) (l : List Char) (h : c ∉ l) :
    jsFindIdx (fun a => a = c) l = none := by
  induction l with
  | nil => rfl
  | cons a t ih =>
    have h1 : ¬(a = c) := fun e => h (e ▸ List.mem_cons_self a t)
    have h2 : c ∉ t := fun m => h (List.mem_cons_of_mem a m)
    simp [jsFindIdx, h1, ih h2]

theorem jsIndexOfFrom_eq_neg_one (c : Char) (l : List Char) (s : Int) (h : c ∉ l) :
    jsIndexOfFrom l c s = -1 := by
  have hd : c ∉ l.drop s.toNat := fun m => h (List.drop_subset _ _ m)
  simp [jsIndexOfFrom, jsIndexOfFromNat, jsFindIdx_eq_none_of_not_mem c _ hd]

theorem jsLastIndexOf_eq_neg_one (c : Char) (l : List Char) (h : c ∉ l) :
    jsLastIndexOf l c = -1 := by
  have hr : c ∉ l.reverse := by simpa using h
  simp [jsLastIndexOf, jsFindIdx_eq_none_of_not_mem c _ hr]

theorem jsSubstring_zero_neg_one (l : List Char) : jsSubstring l 0 (-1) = [] := by
  simp [jsSubstring, jsClamp]

theorem jsSubstringFrom_zero (l : List Char) : jsSubstringFrom l 0 = l := by
  have hlen : jsClamp (l.length : Int) l.length = l.length := by
    unfold jsClamp
    split
    · omega
    · omega
  have h0 : jsClamp 0 l.length = 0 := by
    unfold jsClamp
    simp
  simp [jsSubstringFrom, jsSubstring, hlen, h0]

theorem parseResourcePath_properties_eq (pn : String) :
    (parseResourcePath pn).properties =
      (jsSplitChar (interDotSubstring pn) '.').map (fun w => ⟨w⟩) := rfl

theorem completesOf_append (xs ys : List QueueEv) :
    completesOf (xs ++ ys) = completesOf xs ++ completesOf ys := by
  simp [completesOf]

/-- Conservation over a run of the per-supervisor queue system: the jobs seen
so far are exactly the completed ones followed by those still queued. -/
theorem queueRun_conservation :
    ∀ (acts : List QueueAct) (q q' : List Nat) (evs : List QueueEv),
      queueRun q acts = .ok (q', evs) →
      q ++ submitsOf acts = completesOf evs ++ q' := by
  intro acts
  induction acts with
  | nil =>
    intro q q' evs h
    simp [queueRun] at h
    obtain ⟨rfl, rfl⟩ := h
    simp [submitsOf, completesOf]
  | cons a rest ih =>
    intro q q' evs h
    cases a with
    | submit j =>
      simp only [queueRun, queueStep] at h
      cases hrest : queueRun (q ++ [j]) rest with
      | error e =>
        rw [hrest] at h
        simp at h
      | ok r =>
        obtain ⟨q2, evs2⟩ := r
        rw [hrest] at h
        simp only [Except.ok.injEq, Prod.mk.injEq] at h
        obtain ⟨rfl, rfl⟩ := h
        have key := ih (q ++ [j]) q2 evs2 hrest
        rw [completesOf_append]
        have h0 : completesOf (if (q ++ [j]).length = 1 then [QueueEv.started j] else []) = [] := by
          split <;> rfl
        rw [h0]
        have hs : submitsOf (QueueAct.submit j :: rest) = j :: submitsOf rest := by
          simp [submitsOf]
        rw [hs]
        simpa using key
    | buildResult =>
      cases q with
      | nil => simp [queueRun, queueStep] at h
      | cons j tl =>
        simp only [queueRun, queueStep] at h
        cases hrest : queueRun tl rest with
        | error e =>
          rw [hrest] at h
          simp at h
        | ok r =>
          obtain ⟨q2, evs2⟩ := r
          rw [hrest] at h
          simp only [Except.ok.injEq, Prod.mk.injEq] at h
          obtain ⟨rfl, rfl⟩ := h
          have key := ih tl q2 evs2 hrest
          rw [completesOf_append]
          have hgen : ∀ tl' : List Nat,
              completesOf (QueueEv.complete j ::
                (match tl' with
                 | []     => [QueueEv.drain]
                 | k :: _ => [QueueEv.started k])) = [j] := by
            intro tl'
            cases tl' <;> rfl
          rw [hgen tl]
          have hs : submitsOf (QueueAct.buildResult :: rest) = submitsOf rest := by
            simp [submitsOf]
          rw [hs]
          simpa using key

/-! ### Claim theorems -/

/-- Claim C2: per-supervisor FIFO.  For any sequence of submissions and
`BUILD_RESULT` deliveries on one supervisor's queue (starting idle) that the
code processes without a crash, the jobs for which the pool emitted
`complete`, in emission order, form an initial segment of the jobs in
submission order; hence if `a` was submitted before `b`, `complete a`
precedes `complete b`.  A submission into an empty queue is begun at once,
each `BUILD_RESULT` is attributed to the head of the queue, and completing a
job pops the head and begins the next queued job, as `queueStep` records. -/
theorem C2_jobQueue_fifo (acts : List QueueAct) (q' : List Nat) (evs : List QueueEv)
    (h : queueRun [] acts = .ok (q', evs)) :
    completesOf evs <+: submitsOf acts := by
  have key := queueRun_conservation acts [] q' evs h
  simp only [List.nil_append] at key
  rw [key]
  exact List.prefix_append _ _

/-- Witness for C2 at the trace submit 1, submit 2, result, result. -/
theorem C2_jobQueue_fifo_witness :
    completesOf [QueueEv.started 1, QueueEv.complete 1, QueueEv.started 2,
                 QueueEv.complete 2, QueueEv.drain] <+:
      submitsOf [QueueAct.submit 1, QueueAct.submit 2,
                 QueueAct.buildResult, QueueAct.buildResult] :=
  C2_jobQueue_fifo
    [QueueAct.submit 1, QueueAct.submit 2, QueueAct.buildResult, QueueAct.buildResult]
    []
    [QueueEv.started 1, QueueEv.complete 1, QueueEv.started 2,
     QueueEv.complete 2, QueueEv.drain]
    (by rfl)

/-- Claim C4: a pool `complete` with `success == false` makes the Target
Builder emit an `error` event and leave both databases — entries, index and
dirty flag — exactly as they were. -/
theorem C4_failure_leaves_databases (disk : Disk) (platforms : List String)
    (projectName packageName root : String)
    (sdb : SourceDatabase) (tdb : TargetDatabase) (result : CompleteResult)
    (h : result.success = false) :
    handleFileComplete disk platforms projectName packageName root sdb tdb result =
      .ok (sdb, tdb,
        BuilderEv.error projectName packageName result.input.sourcePath
          result.input.targetPath result.compilerName result.errors) := by
  simp [handleFileComplete, h]

/-- Witness for C4 at a concrete failed result. -/
theorem C4_failure_leaves_databases_witness :
    handleFileComplete diskA [] "proj" "demo" "/pkg" sdbA tdbA resultFail =
      .ok (sdbA, tdbA,
        BuilderEv.error "proj" "demo" "/pkg/a.txt" "/pkg/t/x1" "txt" ["boom"]) :=
  C4_failure_leaves_databases diskA [] "proj" "demo" "/pkg" sdbA tdbA resultFail (by rfl)

/-- Claim C10: `Monitor.kill` with no running child (no child process object,
or `isRunning` false) is a no-op: no `stop`, no `exit`, no field changed. -/
theorem C10_kill_noop (m : MonitorState) (allowRestart : Option Bool)
    (h : m.childProcess = none ∨ m.isRunning = false) :
    monitorKill m allowRestart = (m, []) := by
  rcases h with h | h <;> simp [monitorKill, h]

/-- Witness for C10 on a supervisor whose child has exited. -/
theorem C10_kill_noop_witness :
    monitorKill monDead (some false) = (monDead, []) :=
  C10_kill_noop monDead (some false) (Or.inl rfl)

/-- Claim C3 (code evaluation): after insert `a`, insert `b` the list and the
side index correspond and keys are unique, but removing `a` leaves the `b`
binding pointing at position 1 of a one-element list — the 1-to-1
correspondence is broken — and a subsequent insert of `b` appends a duplicate
instead of overwriting, so the database then holds two entries with the same
primary key.  The identical `remove` of the target database breaks its index
the same way. -/
theorem C3_remove_breaks_index :
    (sdbConsistent sdbSeq2 = true ∧ (sdbKeys sdbSeq2).Nodup)
    ∧ sdbConsistent sdbSeq3 = false
    ∧ jsMapGet sdbSeq3.entryTable "b" = some 1
    ∧ sdbSeq3.entries.length = 1
    ∧ sdbKeys sdbSeq4 = ["b", "b"]
    ∧ ¬(sdbKeys sdbSeq4).Nodup
    ∧ tdbConsistent tdbSeq3 = false := by
  decide

/-- Claim C1 (code evaluation): for the stored record of `a.txt` — mtime and
size unchanged on disk, its sole dependency `b.inc` present in the database,
present on disk and unchanged, and every declared target output present —
`requiresRebuild` still answers `true`, and `determineBuildFiles` schedules
the file instead of emitting the up-to-date skip, because the dependency loop
aborts with the `ReferenceError` on the undeclared `bundle` (caught by the
`try/catch`, which returns `true`).  Emptying the dependency list flips the
answer to `false`, showing nothing else was modified. -/
theorem C1_dependencies_force_rebuild :
    sourceFileModified entryA { mtime := 100, size := 5 } = false
    ∧ dependenciesModifiedLoop sdbA "/pkg" entryA.dependencies =
        .error JsError.referenceErrorBundle
    ∧ requiresRebuild diskA sdbA tdbA "/pkg" entryA "/pkg/t/x1" = true
    ∧ requiresRebuild diskA sdbA tdbA "/pkg" { entryA with dependencies := [] }
        "/pkg/t/x1" = false
    ∧ determineBuildFiles diskA sdbA tdbA "/pkg" "proj" "demo" [infoA] = ([infoA], []) := by
  decide

/-- Claim C5 (code evaluation): with the manifest present and both databases
clean, `targetComplete` writes nothing — but on a second, unchanged run the
`a.txt` record (which carries a recorded dependency) is scheduled for rebuild
anyway, and ingesting its successful result dirties the source database, so
`targetComplete` saves it and rewrites `package.manifest` with a fresh build
date. -/
theorem C5_second_run_rewrites_manifest :
    (targetComplete diskAM sdbA tdbA "/pkg/t" 0).wroteManifest = false
    ∧ (targetComplete diskAM sdbA tdbA "/pkg/t" 0).savedSource = false
    ∧ (targetComplete diskAM sdbA tdbA "/pkg/t" 0).savedTarget = false
    ∧ determineBuildFiles diskAM sdbA tdbA "/pkg" "proj" "demo" [infoA] = ([infoA], [])
    ∧ (handleFileComplete diskAM [] "proj" "demo" "/pkg" sdbA tdbA resultA).toOption.map
        (fun r => (r.1.dirty,
                   (targetComplete diskAM r.1 r.2.1 "/pkg/t" 0).savedSource,
                   (targetComplete diskAM r.1 r.2.1 "/pkg/t" 0).wroteManifest)) =
        some (true, true, true) := by
  decide

/-- Claim C8 (code evaluation): when `ChildProcess.fork` throws, the `catch`
block schedules the `error` event (and `start` is never scheduled), but the
missing `return` lets execution fall through to `this.childPid = cproc.pid`
with `cproc` still `null`, so a `TypeError` escapes `start()` into
`CompilerCache.startup`.  The pool's `handleMonitorError`, were it reached,
re-emits `error` with the route's resource type and the script path; its wait
counter, never decremented by a `start`, keeps `checkReadyStatus` false, so
`ready` is never emitted. -/
theorem C8_spawn_failure_throws :
    monitorStart monU false none =
      { state := monU, scheduled := [MonitorEv.error], thrown := true }
    ∧ handleMonitorError ["png"] "/proc/png.js" = PoolEv.error "png" "/proc/png.js"
    ∧ checkReadyStatus 1 = false := by
  decide

set_option maxRecDepth 20000 in
/-- Claim C6 counterexample: the hash of `"textures/brick"` is neither the
value `0x0001F37C71` (= 32734321) the claim states nor formatted as
`"1f37c71"`. -/
theorem C6_hash_counterexample :
    jsHash "textures/brick".data ≠ 32734321
    ∧ targetPathFor "/pkg/demo.generic.target" "textures/brick" ≠
        pathJoin "/pkg/demo.generic.target" "1f37c71" := by
  decide

set_option maxRecDepth 20000 in
/-- Claim C6 as amended: `targetPathFor` deterministically computes the
rolling hash `h := (h<<7) + (h>>25) + charCode(c)` with initial `h = 0`, the
shifts truncating to 32-bit signed two's complement, and joins the JS
`toString(16)` rendering to the target directory; on `"textures/brick"` the
hash is `-1216144225` (already in int32 range, so truncation is the
identity), and the rendered stem is `"-487ce361"`. -/
theorem C6_targetPathFor_value (targetDir : String) :
    targetPathFor targetDir "textures/brick" = pathJoin targetDir "-487ce361"
    ∧ jsHash "textures/brick".data = -1216144225
    ∧ toInt32 (jsHash "textures/brick".data) = jsHash "textures/brick".data := by
  refine ⟨?_, by decide, by decide⟩
  show pathJoin targetDir ⟨jsNumberToHexChars (jsHash "textures/brick".data)⟩ =
    pathJoin targetDir "-487ce361"
  exact congrArg (pathJoin targetDir) (by decide)

/-- Claim C9 counterexample: on the relative path `"file"` (a filename with
no dot) the parser yields `resourceType = "file"` — the whole path, not the
empty string — and `properties = [""]`, not the empty list; and on `"a.b"`
(empty substring between first and last dot) `properties` is again `[""]`,
not `[]`. -/
theorem C9_counterexample :
    ¬((parseResourcePath "file").resourceType = ""
      ∧ (parseResourcePath "file").properties = ([] : List String))
    ∧ (parseResourcePath "file").resourceType = "file"
    ∧ (parseResourcePath "file").properties = [""]
    ∧ (parseResourcePath "a.b").properties = [""] := by
  decide

/-- Claim C9 as amended: for every relative path containing no `'.'` at all,
the parser yields an empty `resourceName`, `resourceType` equal to the whole
path, and `properties = [""]` (the one-element list holding the empty string,
since JS `''.split('.')` is `['']`); and whenever the substring between the
first and last dot is empty, `properties` is likewise `[""]`. -/
theorem C9_parse_dotless (pn : String) (h : '.' ∉ pn.data) :
    ((parseResourcePath pn).resourceName = ""
      ∧ (parseResourcePath pn).resourceType = pn
      ∧ (parseResourcePath pn).properties = [""])
    ∧ ∀ qn : String, interDotSubstring qn = [] →
        (parseResourcePath qn).properties = [""] := by
  constructor
  · have hlp : jsLastIndexOf pn.data '.' = -1 :=
      jsLastIndexOf_eq_neg_one '.' pn.data h
    have hfp : jsIndexOfFrom pn.data '.' (jsLastIndexOf pn.data pathSep + 1) = -1 :=
      jsIndexOfFrom_eq_neg_one '.' pn.data _ h
    refine ⟨?_, ?_, ?_⟩
    · show (⟨jsSubstring pn.data 0
          (jsIndexOfFrom pn.data '.' (jsLastIndexOf pn.data pathSep + 1))⟩ : String) = ""
      rw [hfp, jsSubstring_zero_neg_one]
    · show (⟨jsSubstringFrom pn.data (jsLastIndexOf pn.data '.' + 1)⟩ : String) = pn
      rw [hlp]
      rw [show (-1 : Int) + 1 = 0 by decide]
      rw [jsSubstringFrom_zero]
    · show ((jsSplitChar (if jsIndexOfFrom pn.data '.' (jsLastIndexOf pn.data pathSep + 1) =
          jsLastIndexOf pn.data '.' then []
          else jsSubstring pn.data
            (jsIndexOfFrom pn.data '.' (jsLastIndexOf pn.data pathSep + 1) + 1)
            (jsLastIndexOf pn.data '.')) '.').map (fun w => (⟨w⟩ : String))) = [""]
      rw [hfp, hlp]
      rfl
  · intro qn hq
    rw [parseResourcePath_properties_eq, hq]
    rfl

/-- Witness for C9 as amended, at the path `"file"`. -/
theorem C9_parse_dotless_witness :
    ('.' ∉ "file".data)
    ∧ ((parseResourcePath "file").resourceName = ""
       ∧ (parseResourcePath "file").resourceType = "file"
       ∧ (parseResourcePath "file").properties = [""]) :=
  ⟨by decide, (C9_parse_dotless "file" (by decide)).1⟩

/-- Claim C7 counterexample: building the single `foo.unknown` against an
empty pipeline with freshly created databases (created empty and dirty, as
`loadSourceDatabase`/`loadTargetDatabase` do when the file is missing) DOES
write both database files at completion. -/
theorem C7_fresh_databases_saved :
    ((runU true true).tc.map (fun r => (r.savedSource, r.savedTarget))) =
      some (true, true) := by
  decide

/-- Claim C7 as amended: building the single source file `foo.unknown`
against an empty pipeline emits exactly one skipped event, whose reason is
the string "No data compiler for resource type unknown"; the finish event
reports `errorCount = 0` and `success = true`; no database entry is inserted
(both entry lists stay empty); and a database file is written at completion
iff that database was already dirty when the run began — i.e. iff it was
newly created rather than loaded.  The candidate record itself is exactly
what `SourceDatabase.create` parses out of `foo.unknown` (before
`checkSourceFile` assigns the platform `generic`). -/
theorem C7_no_compiler_run (ds dt : Bool) :
    (runU ds dt).events =
      [BuilderEv.skipped "proj" "demo" none (targetPathFor tDirU "foo")
        "No data compiler for resource type unknown"]
    ∧ (runU ds dt).finish = some
        { projectName := "proj", packageName := "demo", targetName := "generic"
          successCount := 0, skippedCount := 1, errorCount := 0, success := true }
    ∧ ((runU ds dt).tc.map (fun r => r.savedSource)) = some ds
    ∧ ((runU ds dt).tc.map (fun r => r.savedTarget)) = some dt
    ∧ ((runU ds dt).tc.map (fun r => r.sourceDb.entries)) = some []
    ∧ ((runU ds dt).tc.map (fun r => r.targetDb.entries)) = some []
    ∧ SourceDatabase.create diskU (sdbU ds) "/pkg" "/pkg/foo.unknown" =
        some { entryU with platform := "" } := by
  cases ds <;> cases dt <;> decide
